import Mathlib

/-!
Verification of the toy scripting language implemented in this repository:
the lexer (`lexer_0.py`), the recursive-descent parser (`parser_1.py`), the
AST (`ast_nodes_2.py`) and the tree-walking interpreter (`interpreter_3.py`,
the variant wired up by `main.py`).

The Python source is embedded shallowly: Python ints become `Int`, Python
floats become exact rationals `Rat` (so float arithmetic is modelled by exact
rational arithmetic), Python lists/dicts/instances become heap references
into explicit heaps carried in an interpreter state, and Python exceptions
become an explicit signal type.  Partiality (loops, recursion) is modelled
with a fuel parameter; running out of fuel is a distinct outcome that no
theorem identifies with any program behaviour.
-/

namespace ToyLang

/-! ## Tokens (lexer_0.py, class TokenType / class Token) -/

inductive TokenType where
  | INT | FLOAT | STRING | TRUE | FALSE | NULL | TRY | CATCH | RAISE | ASSERT
  | IDENTIFIER | VAR | FUNC | RETURN | IF | THEN | ELSE | WHILE | FOR | FOREACH
  | IN | NOT_IN | BREAK | CONTINUE | CLASS | NEW
  | ARROW | PLUS | MINUS | MULTIPLY | DIVIDE | MODULO
  | ASSIGN | PLUS_ASSIGN | MINUS_ASSIGN | MULTIPLY_ASSIGN | DIVIDE_ASSIGN
  | EQ | NE | LT | LE | GT | GE
  | AND | OR | NOT
  | LPAREN | RPAREN | LBRACE | RBRACE | LBRACKET | RBRACKET
  | COMMA | COLON | SEMICOLON | DOT | DOTDOT
  | EOF | NEWLINE
  deriving DecidableEq, Repr

/-- The member names of the `TokenType` enum of `lexer_0.py`, in source order.
Note that the enum defines `FUNC` and no member named `FUN`: `parser_1.py`
nevertheless evaluates the attribute `TokenType.FUN`, which therefore raises
`AttributeError` at run time.  Python attribute lookup on the enum is modelled
by membership in this list. -/
def tokenTypeMemberNames : List String :=
  ["INT", "FLOAT", "STRING", "TRUE", "FALSE", "NULL", "TRY", "CATCH", "RAISE",
   "ASSERT", "IDENTIFIER", "VAR", "FUNC", "RETURN", "IF", "THEN", "ELSE",
   "WHILE", "FOR", "FOREACH", "IN", "NOT_IN", "BREAK", "CONTINUE", "CLASS",
   "NEW", "ARROW", "PLUS", "MINUS", "MULTIPLY", "DIVIDE", "MODULO", "ASSIGN",
   "PLUS_ASSIGN", "MINUS_ASSIGN", "MULTIPLY_ASSIGN", "DIVIDE_ASSIGN", "EQ",
   "NE", "LT", "LE", "GT", "GE", "AND", "OR", "NOT", "LPAREN", "RPAREN",
   "LBRACE", "RBRACE", "LBRACKET", "RBRACKET", "COMMA", "COLON", "SEMICOLON",
   "DOT", "DOTDOT", "EOF", "NEWLINE"]

/-- The payload of a token (`Token.value` in `lexer_0.py` is `any`): absent,
an integer, a float, or identifier/string text. -/
inductive TokVal where
  | none
  | int (n : Int)
  | float (q : Rat)
  | str (s : String)
  deriving DecidableEq, Repr

/-- `Token` dataclass of `lexer_0.py`.  The `filename` field defaults to
`"<input>"`; the include-mapping remap at the end of `tokenize` is a no-op
when the mapping is empty (the only case exercised here). -/
structure Token where
  type : TokenType
  value : TokVal
  line : Nat
  column : Nat
  filename : String := "<input>"
  deriving DecidableEq, Repr

/-- Token construction with the default filename `"<input>"`. -/
def mkTok (t : TokenType) (v : TokVal) (line col : Nat) : Token :=
  { type := t, value := v, line := line, column := col }

/-! ## Lexer (lexer_0.py, class Lexer)

The lexer state is the remaining character list plus the current line and
column (`Lexer.pos/line/column`); `advance` maps a newline to line+1,
column 1, and any other character to column+1. -/

/-- Keyword table from `Lexer.__init__`. -/
def keywords : List (String × TokenType) :=
  [("var", .VAR), ("func", .FUNC), ("return", .RETURN), ("if", .IF),
   ("then", .THEN), ("else", .ELSE), ("while", .WHILE), ("for", .FOR),
   ("foreach", .FOREACH), ("in", .IN), ("not_in", .NOT_IN),
   ("break", .BREAK), ("continue", .CONTINUE), ("class", .CLASS),
   ("new", .NEW), ("true", .TRUE), ("false", .FALSE), ("null", .NULL),
   ("try", .TRY), ("catch", .CATCH), ("raise", .RAISE), ("assert", .ASSERT),
   ("and", .AND), ("or", .OR), ("not", .NOT)]

/-- One `advance` step of the position bookkeeping. -/
def stepPos (c : Char) (line col : Nat) : Nat × Nat :=
  if c = '\n' then (line + 1, 1) else (line, col + 1)

/-- Advance the position over a list of consumed characters. -/
def stepPosAll (cs : List Char) (line col : Nat) : Nat × Nat :=
  cs.foldl (fun p c => stepPos c p.1 p.2) (line, col)

/-- `Lexer.skip_whitespace`: consume the maximal prefix of blanks, tabs,
carriage returns and newlines, returning the rest and the new position. -/
def skip_whitespace : List Char → Nat → Nat → List Char × Nat × Nat
  | [], line, col => ([], line, col)
  | c :: rest, line, col =>
    if c = ' ' ∨ c = '\t' ∨ c = '\r' ∨ c = '\n' then
      let p := stepPos c line col
      skip_whitespace rest p.1 p.2
    else (c :: rest, line, col)

/-- `Lexer.skip_comment`: consume characters up to (not including) the next
newline. -/
def skip_comment : List Char → Nat → Nat → List Char × Nat × Nat
  | [], line, col => ([], line, col)
  | c :: rest, line, col =>
    if c = '\n' then (c :: rest, line, col)
    else skip_comment rest line (col + 1)

/-- Digit-list to natural number. -/
def digitsToNat (ds : List Char) : Nat :=
  ds.foldl (fun acc c => acc * 10 + (c.toNat - 48)) 0

/-- The value Python computes with `float(num_str)` for a digit string with a
single dot: integer part plus fractional digits scaled down. -/
def floatOfParts (intPart fracPart : List Char) : Rat :=
  (digitsToNat intPart : Rat) +
    (digitsToNat fracPart : Rat) / ((10 : Rat) ^ fracPart.length)

/-- Scanner loop of `Lexer.read_number`: consume digits, and at most one dot;
a second dot stops the scan without being consumed (so in `1..2` the FIRST
dot is consumed into the number and the second is left in the input). -/
def read_number_aux : List Char → Bool → List Char → List Char × Bool × List Char
  | [], hasDot, acc => (acc.reverse, hasDot, [])
  | c :: rest, hasDot, acc =>
    if c.isDigit then read_number_aux rest hasDot (c :: acc)
    else if c = '.' then
      if hasDot then (acc.reverse, hasDot, c :: rest)
      else read_number_aux rest true (c :: acc)
    else (acc.reverse, hasDot, c :: rest)

/-- `Lexer.read_number`: returns the token, the remaining input, and the new
position.  With a dot the token is FLOAT, otherwise INT. -/
def read_number (cs : List Char) (line col : Nat) :
    Token × List Char × Nat × Nat :=
  let r := read_number_aux cs false []
  let numStr := r.1
  let hasDot := r.2.1
  let rest := r.2.2
  let tok :=
    if hasDot then
      let intPart := numStr.takeWhile (fun c => c ≠ '.')
      let fracPart := (numStr.dropWhile (fun c => c ≠ '.')).drop 1
      mkTok .FLOAT (.float (floatOfParts intPart fracPart)) line col
    else
      mkTok .INT (.int (digitsToNat numStr)) line col
  -- numbers contain no newline, so only the column advances
  (tok, rest, line, col + numStr.length)

/-- Identifier characters: letters, digits, underscore (Python `isalnum` is
restricted here to ASCII; the sources under test use only ASCII names). -/
def isIdentChar (c : Char) : Bool := c.isAlphanum ∨ c = '_'

/-- `Lexer.read_identifier`: scan an identifier, then reclassify via the
keyword table; keyword tokens carry no payload. -/
def read_identifier (cs : List Char) (line col : Nat) :
    Token × List Char × Nat × Nat :=
  let ident := cs.takeWhile isIdentChar
  let rest := cs.dropWhile isIdentChar
  let s := String.mk ident
  let tok :=
    match (keywords.find? (fun kv => kv.1 = s)).map (fun kv => kv.2) with
    | some t => mkTok t .none line col
    | none => mkTok .IDENTIFIER (.str s) line col
  (tok, rest, line, col + ident.length)

/-- Body loop of `Lexer.read_string` (after the opening quote, and after the
extra two quotes of a triple-quoted string have been consumed).  Handles the
escape sequences of the source; an exhausted input is the
"Unterminated string" failure.  Fueled by the input length. -/
def read_string_aux (quote : Char) (triple : Bool) :
    Nat → List Char → Nat → Nat → List Char →
    Except String (String × List Char × Nat × Nat)
  | 0, _, _, _, _ => .error "Unterminated string"
  | _ + 1, [], _, _, _ => .error "Unterminated string"
  | fuel + 1, c :: rest, line, col, acc =>
    if triple ∧ c = quote then
      match rest with
      | c2 :: c3 :: rest2 =>
        if c2 = quote ∧ c3 = quote then
          .ok (String.mk acc.reverse, rest2, line, col + 3)
        else
          let p := stepPos c line col
          read_string_aux quote triple fuel rest p.1 p.2 (c :: acc)
      | _ =>
        let p := stepPos c line col
        read_string_aux quote triple fuel rest p.1 p.2 (c :: acc)
    else if ¬ triple ∧ c = quote then
      .ok (String.mk acc.reverse, rest, line, col + 1)
    else if c = '\\' then
      match rest with
      | [] => .error "Unterminated string"
      | e :: rest2 =>
        let decoded :=
          if e = 'n' then '\n'
          else if e = 't' then '\t'
          else if e = '\\' then '\\'
          else if e = quote then quote
          else e
        let p := stepPos c line col
        let p2 := stepPos e p.1 p.2
        read_string_aux quote triple fuel rest2 p2.1 p2.2 (decoded :: acc)
    else
      let p := stepPos c line col
      read_string_aux quote triple fuel rest p.1 p.2 (c :: acc)

/-- `Lexer.read_string`: consume the opening quote, detect a triple quote,
then run the body loop.  Returns the token, remaining input and position. -/
def read_string (cs : List Char) (line col : Nat) :
    Except String (Token × List Char × Nat × Nat) :=
  match cs with
  | [] => .error "Unterminated string"
  | quote :: rest =>
    let startLine := line
    let startCol := col
    let p := stepPos quote line col
    match rest with
    | c1 :: c2 :: rest2 =>
      if c1 = quote ∧ c2 = quote then
        match read_string_aux quote true (rest2.length + 1) rest2 p.1 (p.2 + 2) [] with
        | .ok (s, r, l, c) => .ok (mkTok .STRING (.str s) startLine startCol, r, l, c)
        | .error e => .error e
      else
        match read_string_aux quote false (rest.length + 1) rest p.1 p.2 [] with
        | .ok (s, r, l, c) => .ok (mkTok .STRING (.str s) startLine startCol, r, l, c)
        | .error e => .error e
    | _ =>
      match read_string_aux quote false (rest.length + 1) rest p.1 p.2 [] with
      | .ok (s, r, l, c) => .ok (mkTok .STRING (.str s) startLine startCol, r, l, c)
      | .error e => .error e

/-- One- or two-character operator dispatch of `Lexer.tokenize` for a leading
character that is not a digit, quote, identifier start, or dot.  Returns the
token and how many characters were consumed, or an "Unexpected character"
failure. -/
def operatorToken (c : Char) (next? : Option Char) (line col : Nat) :
    Except String (Token × Nat) :=
  let two (t : TokenType) : Except String (Token × Nat) := .ok (mkTok t .none line col, 2)
  let one (t : TokenType) : Except String (Token × Nat) := .ok (mkTok t .none line col, 1)
  if c = '+' then (if next? = some '=' then two .PLUS_ASSIGN else one .PLUS)
  else if c = '-' then (if next? = some '=' then two .MINUS_ASSIGN else one .MINUS)
  else if c = '*' then (if next? = some '=' then two .MULTIPLY_ASSIGN else one .MULTIPLY)
  else if c = '/' then (if next? = some '=' then two .DIVIDE_ASSIGN else one .DIVIDE)
  else if c = '%' then one .MODULO
  else if c = '=' then
    (if next? = some '=' then two .EQ
     else if next? = some '>' then two .ARROW
     else one .ASSIGN)
  else if c = '!' then (if next? = some '=' then two .NE else one .NOT)
  else if c = '<' then (if next? = some '=' then two .LE else one .LT)
  else if c = '>' then (if next? = some '=' then two .GE else one .GT)
  else if c = '(' then one .LPAREN
  else if c = ')' then one .RPAREN
  else if c = '{' then one .LBRACE
  else if c = '}' then one .RBRACE
  else if c = '[' then one .LBRACKET
  else if c = ']' then one .RBRACKET
  else if c = ',' then one .COMMA
  else if c = ':' then one .COLON
  else if c = ';' then one .SEMICOLON
  else if c = '.' then (if next? = some '.' then two .DOTDOT else one .DOT)
  else .error ("Unexpected character: " ++ String.mk [c])

/-- Main loop of `Lexer.tokenize`, fueled by the input length (each iteration
consumes at least one character). -/
def lex_loop : Nat → List Char → Nat → Nat → List Token → Except String (List Token)
  | 0, _, line, col, acc => .ok ((mkTok .EOF .none line col) :: acc).reverse
  | fuel + 1, cs, line, col, acc =>
    let w := skip_whitespace cs line col
    match w with
    | ([], line2, col2) => .ok ((mkTok .EOF .none line2 col2) :: acc).reverse
    | (c :: rest, line2, col2) =>
      if c = '#' then
        let r := skip_comment (c :: rest) line2 col2
        lex_loop fuel r.1 r.2.1 r.2.2 acc
      else if c.isDigit then
        let r := read_number (c :: rest) line2 col2
        lex_loop fuel r.2.1 r.2.2.1 r.2.2.2 (r.1 :: acc)
      else if c = '\"' ∨ c = '\x27' then
        match read_string (c :: rest) line2 col2 with
        | .error e => .error e
        | .ok (tok, rest2, l3, c3) => lex_loop fuel rest2 l3 c3 (tok :: acc)
      else if c.isAlpha ∨ c = '_' then
        let r := read_identifier (c :: rest) line2 col2
        lex_loop fuel r.2.1 r.2.2.1 r.2.2.2 (r.1 :: acc)
      else
        match operatorToken c rest.head? line2 col2 with
        | .error e => .error e
        | .ok (tok, used) =>
          lex_loop fuel ((c :: rest).drop used) line2 (col2 + used) (tok :: acc)

/-- `Lexer.tokenize` on a source string (empty include mapping, so the final
remap of token positions is the identity). -/
def tokenize (source : String) : Except String (List Token) :=
  lex_loop (source.length + 1) source.toList 1 1 []

/-- Convenience: the token list of a source string that lexes without error
(used to feed the parser in concrete theorems). -/
def lexed (source : String) : List Token :=
  match tokenize source with
  | .ok ts => ts
  | .error _ => []

/-! ## AST (ast_nodes_2.py)

One inductive for all node variants, mirroring the single `ASTNode` base
class of the source: the interpreter dispatches on the variant and rejects
statement variants appearing as expressions and vice versa, exactly like the
`isinstance` chains of `interpreter_3.py`.  `Raise` and `Assert` carry the
optional `(file, line)` metadata that `Parser.attach_meta` sets with
`setattr`; `getattr` with defaults is modelled by `Option.getD`. -/

inductive Node where
  | intLiteral (value : Int)
  | floatLiteral (value : Rat)
  | stringLiteral (value : String)
  | boolLiteral (value : Bool)
  | nullLiteral
  | tryCatch (try_block : List Node) (catch_var : String) (catch_block : List Node)
  | raiseStmt (expr : Node) (meta : Option (String × Int))
  | assertStmt (expr : Node) (msg : Option Node) (meta : Option (String × Int))
  | arrayLiteral (elements : List Node)
  | dictLiteral (pairs : List (Node × Node))
  | identifier (name : String)
  | binaryOp (left : Node) (operator : String) (right : Node)
  | unaryOp (operator : String) (operand : Node)
  | indexAccess (object : Node) (index : Node)
  | sliceAccess (object : Node) (start : Node) (stop : Node)
  | varDeclaration (name : String) (value : Node)
  | assignment (target : Node) (value : Node)
  | functionDef (name : String) (params : List String) (body : List Node)
  | functionCall (name : String) (arguments : List Node)
  | methodCall (object : Node) (method : String) (arguments : List Node)
  | memberAccess (object : Node) (member : String)
  | returnStmt (value : Option Node)
  | ifStatement (condition : Node) (then_block : List Node)
      (else_block : Option (List Node))
  | whileStatement (condition : Node) (body : List Node)
  | foreachStatement (key_var value_var : String) (collection : Node)
      (body : List Node)
  | breakStmt
  | continueStmt
  | classDef (name : String) (members : List (String × Node))
      (methods : List (String × List String × List Node))
  | newExpression (class_name : String) (arguments : List Node)

/-- The class names `ast_nodes_2.py` actually defines, in source order.  The
module defines neither `MultiVarDeclaration` nor `ForStatement`, although
`parser_1.py` imports both names from it inside `parse_var_declaration` and
`parse_for_statement`; those imports raise `ImportError` when executed. -/
def astNodes2ClassNames : List String :=
  ["ASTNode", "Program", "IntLiteral", "FloatLiteral", "StringLiteral",
   "BoolLiteral", "NullLiteral", "TryCatch", "Raise", "Assert",
   "ArrayLiteral", "DictLiteral", "Identifier", "BinaryOp", "UnaryOp",
   "IndexAccess", "SliceAccess", "VarDeclaration", "Assignment",
   "FunctionDef", "FunctionCall", "MethodCall", "MemberAccess", "Return",
   "IfStatement", "WhileStatement", "ForeachStatement", "Break", "Continue",
   "ClassDef", "NewExpression"]

/-! ## Parser (parser_1.py, class Parser)

`Parser.parse_statement` dispatches on the leading token.  Its `elif` chain
cannot run to completion on any input in this source tree:

* the first branch (`VAR`) calls `parse_var_declaration`, whose first
  executed line is `from ast_nodes_2 import MultiVarDeclaration, NullLiteral`
  and `ast_nodes_2` defines no `MultiVarDeclaration`, so Python raises
  `ImportError`;
* for every other leading token the second test of the chain evaluates the
  attribute `TokenType.FUN`, and the `TokenType` enum defines no member
  `FUN` (the keyword table maps `func` to the member `FUNC`), so Python
  raises `AttributeError` before the later branches (`RETURN`, `IF`,
  `WHILE`, `FOR`, `CLASS`, ...) can be examined.

Both failures are modelled by explicit name lookups against the faithfully
transcribed name tables above, so that the unreachable remainder of the
dispatch chain is the only part of the parser that is not transcribed. -/

/-- A Python exception escaping from the parser. -/
inductive ParseErr where
  | attributeError (missing : String)
  | importError (missing : String)
  | parseError (msg : String)
  deriving DecidableEq, Repr

/-- Python attribute lookup `TokenType.<name>` on the enum object. -/
def tokenTypeAttr (name : String) : Except ParseErr Unit :=
  if tokenTypeMemberNames.contains name then .ok ()
  else .error (.attributeError name)

/-- Python `from ast_nodes_2 import <name>`. -/
def importFromAstNodes2 (name : String) : Except ParseErr Unit :=
  if astNodes2ClassNames.contains name then .ok ()
  else .error (.importError name)

/-- `Parser.current_token`: the token at `pos`, or the last token (EOF) when
`pos` runs past the end. -/
def current_token (tokens : List Token) (pos : Nat) : Token :=
  match tokens.get? pos with
  | some t => t
  | none => (tokens.getLast?).getD (mkTok .EOF .none 0 0)

/-- `Parser.parse_statement` (parser_1.py lines 64 to 132).  The result would
be the parsed statement (possibly none) and the new position; in this source
tree every call raises instead, as described above: the `VAR` branch dies on
the `MultiVarDeclaration` import inside `parse_var_declaration`, and every
other branch dies evaluating `TokenType.FUN`.  The code below those two
points is unreachable and therefore not transcribed. -/
def parse_statement (tokens : List Token) (pos : Nat) :
    Except ParseErr (Option Node × Nat) := do
  let token := current_token tokens pos
  if token.type = TokenType.VAR then
    -- stmt = self.parse_var_declaration(), which begins with
    -- from ast_nodes_2 import MultiVarDeclaration, NullLiteral
    let _ ← importFromAstNodes2 "MultiVarDeclaration"
    .error (.parseError "unreachable: the import above always fails")
  else
    -- elif token.type == TokenType.FUN:
    let _ ← tokenTypeAttr "FUN"
    .error (.parseError "unreachable: the attribute lookup above always fails")

/-! ## Interpreter values and state (interpreter_3.py)

Python values are modelled by `Val`.  Mutable objects (lists, dicts, class
instances) and environment frames live in heaps inside the interpreter state
`St`, and `Val` holds references into those heaps, so aliasing and in-place
mutation behave as in the source.  Python floats are modelled by exact
rationals.  A Python `bool` is an `int` subtype: every place the source
tests `isinstance(x, int)` the model uses `asPyInt`, which accepts booleans
(True counts as 1, False as 0).

Error-message strings follow the source except that the quote marks Python
puts around names and type names (for example in `<class 'int'>`) are
dropped, and `str()` of containers, functions and instances is abbreviated
to a fixed tag; no claim depends on those strings. -/

inductive Val where
  | int (n : Int)
  | float (q : Rat)
  | bool (b : Bool)
  | str (s : String)
  | null
  | arr (r : Nat)
  | dict (r : Nat)
  | func (r : Nat)
  | cls (r : Nat)
  | inst (r : Nat)
  | boundMethod (instRef : Nat) (method : String)
  deriving DecidableEq

/-- Environment frame (`class Environment`): parent link plus bindings.
Bindings keep insertion order like a Python dict. -/
structure Frame where
  parent : Option Nat
  vars : List (String × Val)  -- the source field is named `variables`

/-- `class Function`: name, parameters, body, defining environment. -/
structure FuncV where
  name : String
  params : List String
  body : List Node
  env : Nat

/-- `class ClassValue`: name, member declarations (name and initializer
expression), methods (name, parameters, body), defining environment. -/
structure ClassV where
  name : String
  members : List (String × Node)
  methods : List (String × List String × List Node)
  env : Nat

/-- `class ClassInstance`: class reference plus per-instance field map. -/
structure InstV where
  class_value : Nat
  fields : List (String × Val)

/-- Interpreter state: the heaps, the current environment
(`Interpreter.current_env`) and the receiver stack
(`Interpreter.this_stack`, modelled with the top at the head). -/
structure St where
  frames : List Frame
  arrays : List (List Val)
  dicts : List (List (String × Val))
  funcs : List FuncV
  classes : List ClassV
  insts : List InstV
  current_env : Nat
  this_stack : List Nat

/-- Non-value outcomes of evaluation: the source's `BreakException`,
`ContinueException`, `ReturnException`, `TinyException` and plain Python
`Exception` (which also covers host-level errors such as `IndexError`),
plus the out-of-fuel artifact of the embedding. -/
inductive Exn where
  | brk
  | cont
  | ret (v : Val)
  | tiny (msg : String)
  | host (msg : String)
  | nofuel
  deriving DecidableEq

/-- Result of evaluating an expression or statement. -/
inductive Res where
  | ok (v : Val)
  | exn (e : Exn)
  deriving DecidableEq

/-- Ordered association-list lookup (Python dict read). -/
def lookupAssoc {α : Type} (l : List (String × α)) (k : String) : Option α :=
  (l.find? (fun p => p.1 = k)).map (fun p => p.2)

/-- Ordered association-list write (Python dict write): replace in place if
the key exists, otherwise append. -/
def setAssoc {α : Type} (l : List (String × α)) (k : String) (v : α) :
    List (String × α) :=
  if (l.find? (fun p => p.1 = k)).isSome then
    l.map (fun p => if p.1 = k then (k, v) else p)
  else l ++ [(k, v)]

/-- Walk of `Environment.get` along parent links.  The gas argument bounds
the walk; states built by the evaluator only ever chain a frame to an
earlier-allocated frame, so a gas of one more than the heap size never runs
out. -/
def env_get_aux : Nat → List Frame → Nat → String → Option Val
  | 0, _, _, _ => none
  | gas + 1, frames, fid, nm =>
    match frames.get? fid with
    | none => none
    | some fr =>
      match lookupAssoc fr.vars nm with
      | some v => some v
      | none =>
        match fr.parent with
        | some p => env_get_aux gas frames p nm
        | none => none

/-- `Environment.get` from the current environment. -/
def env_get (st : St) (nm : String) : Except String Val :=
  match env_get_aux (st.frames.length + 1) st.frames st.current_env nm with
  | some v => .ok v
  | none => .error ("Undefined variable: " ++ nm)

/-- Walk of `Environment.set`: mutate the innermost frame that already binds
the name; never creates a binding. -/
def env_set_aux : Nat → List Frame → Nat → String → Val → Option (List Frame)
  | 0, _, _, _, _ => none
  | gas + 1, frames, fid, nm, v =>
    match frames.get? fid with
    | none => none
    | some fr =>
      if (lookupAssoc fr.vars nm).isSome then
        some (frames.set fid { fr with vars := setAssoc fr.vars nm v })
      else
        match fr.parent with
        | some p => env_set_aux gas frames p nm v
        | none => none

/-- `Environment.set` from the current environment. -/
def env_set (st : St) (nm : String) (v : Val) : Except String St :=
  match env_set_aux (st.frames.length + 1) st.frames st.current_env nm v with
  | some fs => .ok { st with frames := fs }
  | none => .error ("Undefined variable: " ++ nm)

/-- `Environment.define` on the current frame. -/
def env_define (st : St) (nm : String) (v : Val) : St :=
  match st.frames.get? st.current_env with
  | some fr =>
    { st with
      frames := st.frames.set st.current_env
        { fr with vars := setAssoc fr.vars nm v } }
  | none => st

/-- Allocate a frame with the given parent and initial bindings
(`Environment(parent)` followed by `define` calls). -/
def alloc_frame (st : St) (parent : Nat) (vars : List (String × Val)) :
    Nat × St :=
  (st.frames.length, { st with frames := st.frames ++ [⟨some parent, vars⟩] })

/-- Allocate a fresh Python list. -/
def alloc_array (st : St) (l : List Val) : Nat × St :=
  (st.arrays.length, { st with arrays := st.arrays ++ [l] })

/-- Allocate a fresh Python dict. -/
def alloc_dict (st : St) (l : List (String × Val)) : Nat × St :=
  (st.dicts.length, { st with dicts := st.dicts ++ [l] })

/-- Allocate a `Function` value. -/
def alloc_func (st : St) (f : FuncV) : Nat × St :=
  (st.funcs.length, { st with funcs := st.funcs ++ [f] })

/-- Allocate a `ClassValue`. -/
def alloc_class (st : St) (c : ClassV) : Nat × St :=
  (st.classes.length, { st with classes := st.classes ++ [c] })

/-- Allocate a `ClassInstance` with empty fields. -/
def alloc_inst (st : St) (classRef : Nat) : Nat × St :=
  (st.insts.length, { st with insts := st.insts ++ [⟨classRef, []⟩] })

/-- Method-table lookup.  `ClassValue.__init__` builds
`{m.name: m for m in methods}`, where a later duplicate overwrites an
earlier one, hence the reversed search. -/
def methodLookup (c : ClassV) (name : String) :
    Option (List String × List Node) :=
  (c.methods.reverse.find? (fun m => m.1 = name)).map (fun m => m.2)

/-- The `int` view of a value where the source tests `isinstance(x, int)`:
Python booleans are ints (True is 1, False is 0). -/
def asPyInt : Val → Option Int
  | .int n => some n
  | .bool b => some (if b then 1 else 0)
  | _ => none

/-- Numeric view for arithmetic: ints (including booleans) and floats. -/
inductive PyNum where
  | i (n : Int)
  | f (q : Rat)

/-- The numeric view of a value, if any. -/
def asNum : Val → Option PyNum
  | .int n => some (.i n)
  | .bool b => some (.i (if b then 1 else 0))
  | .float q => some (.f q)
  | _ => none

/-- A `PyNum` as an exact rational. -/
def PyNum.toRat : PyNum → Rat
  | .i n => (n : Rat)
  | .f q => q

/-- `Interpreter.is_truthy`. -/
def is_truthy (st : St) : Val → Bool
  | .bool b => b
  | .null => false
  | .int n => n ≠ 0
  | .float q => q ≠ 0
  | .str s => s.length > 0
  | .arr r => ((st.arrays.get? r).getD []).length > 0
  | .dict r => ((st.dicts.get? r).getD []).length > 0
  | _ => true

/-- Python `type(x)` as printed in error messages (quote marks dropped). -/
def pyTypeName : Val → String
  | .int _ => "<class int>"
  | .float _ => "<class float>"
  | .bool _ => "<class bool>"
  | .str _ => "<class str>"
  | .null => "<class NoneType>"
  | .arr _ => "<class list>"
  | .dict _ => "<class dict>"
  | .func _ => "<class interpreter_3.Function>"
  | .cls _ => "<class interpreter_3.ClassValue>"
  | .inst _ => "<class interpreter_3.ClassInstance>"
  | .boundMethod _ _ => "<class function>"

/-- Python `str()` of a float (used only through `pyStr`; no claim depends
on float formatting, so the integral case is printed the Python way and any
other rational falls back to the `Rat` printer). -/
def ratStr (q : Rat) : String :=
  if q.den = 1 then toString q.num ++ ".0" else toString q

/-- `Interpreter.to_string`, that is Python `str(value)`.  Scalars are
exact; containers, functions, classes and instances are abbreviated to a
tag (Python would print their contents or address; no claim depends on
that). -/
def pyStr : Val → String
  | .int n => toString n
  | .float q => ratStr q
  | .bool b => if b then "True" else "False"
  | .str s => s
  | .null => "None"
  | .arr _ => "<array>"
  | .dict _ => "<dict>"
  | .func _ => "<function>"
  | .cls _ => "<class>"
  | .inst _ => "<instance>"
  | .boundMethod _ _ => "<bound method>"

/-- Python `==` on values.  Numbers (including booleans) compare by value
across int/float; strings, None compare structurally; container and object
references compare by identity (Python compares list/dict contents
structurally, but no claim depends on container equality). -/
def pyEq (a b : Val) : Bool :=
  match asNum a, asNum b with
  | some x, some y => x.toRat = y.toRat
  | _, _ =>
    match a, b with
    | .str s, .str t => s = t
    | .null, .null => true
    | .arr r, .arr s => r = s
    | .dict r, .dict s => r = s
    | .func r, .func s => r = s
    | .cls r, .cls s => r = s
    | .inst r, .inst s => r = s
    | .boundMethod i m, .boundMethod j n => i = j ∧ m = n
    | _, _ => false

/-- Containment of one character list in another (Python substring test). -/
def isSubList (needle hay : List Char) : Bool :=
  (List.range (hay.length + 1)).any (fun i => needle.isPrefixOf (hay.drop i))

/-- Lexicographic string order (Python string comparison by code point). -/
def strLtList : List Char → List Char → Bool
  | [], [] => false
  | [], _ :: _ => true
  | _ :: _, [] => false
  | c :: cs, d :: ds =>
    if c < d then true else if d < c then false else strLtList cs ds

/-- Python `<` on two values: numeric or string operands; any other
combination raises `TypeError`. -/
def pyLt (a b : Val) : Except String Bool :=
  match asNum a, asNum b with
  | some x, some y => .ok (x.toRat < y.toRat)
  | _, _ =>
    match a, b with
    | .str s, .str t => .ok (strLtList s.toList t.toList)
    | _, _ =>
      .error ("unsupported comparison between instances of " ++
        pyTypeName a ++ " and " ++ pyTypeName b)

/-- Python slice-bound normalisation for `obj[a:b]` on a sequence of the
given length: negative indices count from the end, bounds clamp to the
sequence. -/
def sliceBound (len : Nat) (i : Int) : Nat :=
  if i < 0 then (len + i).toNat else min i.toNat len

/-- Python `l[a:b]`. -/
def pySlice {α : Type} (l : List α) (a b : Int) : List α :=
  let lo := sliceBound l.length a
  let hi := sliceBound l.length b
  (l.drop lo).take (hi - lo)

/-- `Interpreter.eval_unary_op`. -/
def eval_unary_op (st : St) (op : String) (v : Val) : Except String Val :=
  if op = "-" then
    match asNum v with
    | some (.i n) => .ok (.int (-n))
    | some (.f q) => .ok (.float (-q))
    | none => .error ("bad operand type for unary -: " ++ pyTypeName v)
  else if op = "not" then .ok (.bool (¬ is_truthy st v))
  else .error ("Unknown unary operator: " ++ op)

/-- Addition of two numeric views, promoting to float if either side is a
float (Python `+`, `-`, `*` on numbers behave likewise). -/
def numArith (f : Int → Int → Int) (g : Rat → Rat → Rat) :
    PyNum → PyNum → Val
  | .i a, .i b => .int (f a b)
  | x, y => .float (g x.toRat y.toRat)

/-- `Interpreter.eval_binary_op`.  Returns the resulting value or the
message of the raised exception; the state is threaded because `+` on two
lists and `*` on a list allocate fresh lists. -/
def eval_binary_op (st : St) (left : Val) (op : String) (right : Val) :
    Except String Val × St :=
  if op = "+" then
    match left, right with
    | .str _, _ => (.ok (.str (pyStr left ++ pyStr right)), st)
    | _, .str _ => (.ok (.str (pyStr left ++ pyStr right)), st)
    | .arr a, .arr b =>
      -- plain Python list concatenation (eval_expression intercepts this
      -- case before calling eval_binary_op, so it is unreachable from there)
      let la := (st.arrays.get? a).getD []
      let lb := (st.arrays.get? b).getD []
      let r := alloc_array st (la ++ lb)
      (.ok (.arr r.1), r.2)
    | _, _ =>
      match asNum left, asNum right with
      | some x, some y => (.ok (numArith (· + ·) (· + ·) x y), st)
      | _, _ => (.error "unsupported operand type(s) for +", st)
  else if op = "-" then
    match asNum left, asNum right with
    | some x, some y => (.ok (numArith (· - ·) (· - ·) x y), st)
    | _, _ => (.error "unsupported operand type(s) for -", st)
  else if op = "*" then
    match asNum left, asNum right with
    | some x, some y => (.ok (numArith (· * ·) (· * ·) x y), st)
    | _, _ =>
      match left, right with
      | .str s, _ =>
        match asPyInt right with
        | some n => (.ok (.str (String.join (List.replicate n.toNat s))), st)
        | none => (.error "unsupported operand type(s) for *", st)
      | _, .str s =>
        match asPyInt left with
        | some n => (.ok (.str (String.join (List.replicate n.toNat s))), st)
        | none => (.error "unsupported operand type(s) for *", st)
      | .arr a, _ =>
        match asPyInt right with
        | some n =>
          let la := (st.arrays.get? a).getD []
          let r := alloc_array st (List.flatten (List.replicate n.toNat la))
          (.ok (.arr r.1), r.2)
        | none => (.error "unsupported operand type(s) for *", st)
      | _, .arr a =>
        match asPyInt left with
        | some n =>
          let la := (st.arrays.get? a).getD []
          let r := alloc_array st (List.flatten (List.replicate n.toNat la))
          (.ok (.arr r.1), r.2)
        | none => (.error "unsupported operand type(s) for *", st)
      | _, _ => (.error "unsupported operand type(s) for *", st)
  else if op = "/" then
    -- if right == 0: raise Exception("Division by zero")
    if pyEq right (.int 0) then (.error "Division by zero", st)
    else
      match asPyInt left, asPyInt right with
      | some a, some b => (.ok (.int (Int.fdiv a b)), st)
      | _, _ =>
        match asNum left, asNum right with
        | some x, some y => (.ok (.float (x.toRat / y.toRat)), st)
        | _, _ => (.error "unsupported operand type(s) for /", st)
  else if op = "%" then
    if pyEq right (.int 0) then (.error "Modulo by zero", st)
    else
      match asPyInt left, asPyInt right with
      | some a, some b => (.ok (.int (Int.fmod a b)), st)
      | _, _ =>
        match asNum left, asNum right with
        | some x, some y =>
          let q := x.toRat
          let r := y.toRat
          (.ok (.float (q - r * (⌊q / r⌋ : Int))), st)
        | _, _ => (.error "unsupported operand type(s) for %", st)
  else if op = "==" then (.ok (.bool (pyEq left right)), st)
  else if op = "!=" then (.ok (.bool (¬ pyEq left right)), st)
  else if op = "<" then
    match pyLt left right with
    | .ok b => (.ok (.bool b), st)
    | .error e => (.error e, st)
  else if op = "<=" then
    match pyLt right left with
    | .ok b => (.ok (.bool (¬ b)), st)
    | .error e => (.error e, st)
  else if op = ">" then
    match pyLt right left with
    | .ok b => (.ok (.bool b), st)
    | .error e => (.error e, st)
  else if op = ">=" then
    match pyLt left right with
    | .ok b => (.ok (.bool (¬ b)), st)
    | .error e => (.error e, st)
  else if op = "and" then
    (.ok (.bool (is_truthy st left && is_truthy st right)), st)
  else if op = "or" then
    (.ok (.bool (is_truthy st left || is_truthy st right)), st)
  else if op = "in" then
    match right with
    | .arr r =>
      let l := (st.arrays.get? r).getD []
      (.ok (.bool (l.any (fun e => pyEq left e))), st)
    | .dict r =>
      match left with
      | .str s =>
        let l := (st.dicts.get? r).getD []
        (.ok (.bool (lookupAssoc l s).isSome), st)
      | _ => (.error "Dictionary keys for in must be strings", st)
    | .str t =>
      match left with
      | .str s => (.ok (.bool (isSubList s.toList t.toList)), st)
      | _ => (.error "Substring for in must be a string", st)
    | _ => (.error ("in not supported for " ++ pyTypeName right), st)
  else (.error ("Unknown binary operator: " ++ op), st)

/-- Python `name.startswith("_")`, the private-name test, computed on the
character list. -/
def startsWithUnderscore (name : String) : Bool :=
  match name.toList with
  | [] => false
  | c :: _ => c = '_'

/-- `Interpreter.is_internal_access`: the receiver stack is non-empty and
its top is an instance of the same class (`ClassValue` identity) as the
target instance. -/
def is_internal_access (st : St) (instRef : Nat) : Bool :=
  match st.this_stack with
  | [] => false
  | t :: _ =>
    match st.insts.get? t, st.insts.get? instRef with
    | some top, some inst => top.class_value = inst.class_value
    | _, _ => false

/-- Name of the class of an instance reference (for error messages). -/
def classNameOf (st : St) (classRef : Nat) : String :=
  match st.classes.get? classRef with
  | some c => c.name
  | none => "?"

/-- `Interpreter.get_member`: privacy check first, then fields, then a
bound method, then failure. -/
def get_member (st : St) (objv : Val) (name : String) : Except String Val :=
  match objv with
  | .inst r =>
    match st.insts.get? r with
    | none => .error "Member access only valid on class instances"
    | some inst =>
      let cname := classNameOf st inst.class_value
      if startsWithUnderscore name ∧ ¬ is_internal_access st r then
        .error ("Cannot access private member " ++ name ++ " of class " ++ cname)
      else
        match lookupAssoc inst.fields name with
        | some v => .ok v
        | none =>
          match st.classes.get? inst.class_value with
          | some c =>
            if (methodLookup c name).isSome then .ok (.boundMethod r name)
            else .error ("Member " ++ name ++ " not found on class " ++ cname)
          | none => .error ("Member " ++ name ++ " not found on class " ++ cname)
  | _ => .error "Member access only valid on class instances"

/-- `Interpreter.set_member`: privacy check first; only fields that already
exist on the instance may be assigned. -/
def set_member (st : St) (objv : Val) (name : String) (v : Val) :
    Except String St :=
  match objv with
  | .inst r =>
    match st.insts.get? r with
    | none => .error "Member assignment only valid on class instances"
    | some inst =>
      let cname := classNameOf st inst.class_value
      if startsWithUnderscore name ∧ ¬ is_internal_access st r then
        .error ("Cannot access private member " ++ name ++ " of class " ++ cname)
      else if (lookupAssoc inst.fields name).isSome then
        .ok { st with
              insts := st.insts.set r
                { inst with fields := setAssoc inst.fields name v } }
      else
        .error ("Member " ++ name ++ " not defined on class " ++ cname)
  | _ => .error "Member assignment only valid on class instances"

/-- Python name of an AST node class, for the unknown statement and unknown
expression error messages. -/
def nodeTypeName : Node → String
  | .intLiteral _ => "<class ast_nodes_2.IntLiteral>"
  | .floatLiteral _ => "<class ast_nodes_2.FloatLiteral>"
  | .stringLiteral _ => "<class ast_nodes_2.StringLiteral>"
  | .boolLiteral _ => "<class ast_nodes_2.BoolLiteral>"
  | .nullLiteral => "<class ast_nodes_2.NullLiteral>"
  | .tryCatch _ _ _ => "<class ast_nodes_2.TryCatch>"
  | .raiseStmt _ _ => "<class ast_nodes_2.Raise>"
  | .assertStmt _ _ _ => "<class ast_nodes_2.Assert>"
  | .arrayLiteral _ => "<class ast_nodes_2.ArrayLiteral>"
  | .dictLiteral _ => "<class ast_nodes_2.DictLiteral>"
  | .identifier _ => "<class ast_nodes_2.Identifier>"
  | .binaryOp _ _ _ => "<class ast_nodes_2.BinaryOp>"
  | .unaryOp _ _ => "<class ast_nodes_2.UnaryOp>"
  | .indexAccess _ _ => "<class ast_nodes_2.IndexAccess>"
  | .sliceAccess _ _ _ => "<class ast_nodes_2.SliceAccess>"
  | .varDeclaration _ _ => "<class ast_nodes_2.VarDeclaration>"
  | .assignment _ _ => "<class ast_nodes_2.Assignment>"
  | .functionDef _ _ _ => "<class ast_nodes_2.FunctionDef>"
  | .functionCall _ _ => "<class ast_nodes_2.FunctionCall>"
  | .methodCall _ _ _ => "<class ast_nodes_2.MethodCall>"
  | .memberAccess _ _ => "<class ast_nodes_2.MemberAccess>"
  | .returnStmt _ => "<class ast_nodes_2.Return>"
  | .ifStatement _ _ _ => "<class ast_nodes_2.IfStatement>"
  | .whileStatement _ _ => "<class ast_nodes_2.WhileStatement>"
  | .foreachStatement _ _ _ _ => "<class ast_nodes_2.ForeachStatement>"
  | .breakStmt => "<class ast_nodes_2.Break>"
  | .continueStmt => "<class ast_nodes_2.Continue>"
  | .classDef _ _ _ => "<class ast_nodes_2.ClassDef>"
  | .newExpression _ _ => "<class ast_nodes_2.NewExpression>"

/-- Location prefix of `Raise`/`Assert` messages:
`getattr(node, "file", "<input>")` and `getattr(node, "line", 0)`. -/
def locString (meta : Option (String × Int)) : String :=
  match meta with
  | some (f, l) => f ++ ":" ++ toString l
  | none => "<input>:0"

/-- Lift the result of `eval_binary_op` into an evaluation result: a raised
message becomes a propagating Python exception. -/
def binDispatch (st : St) (l : Val) (op : String) (r : Val) : Res × St :=
  match eval_binary_op st l op r with
  | (.ok v, st1) => (.ok v, st1)
  | (.error m, st1) => (.exn (.host m), st1)

/-- The finally block of `call_method` and `instantiate_class`: restore the
previous environment and pop the receiver stack. -/
def popCtx (st : St) (prev : Nat) : St :=
  { st with current_env := prev, this_stack := st.this_stack.tail }

/-! ## The evaluator (interpreter_3.py, class Interpreter)

All evaluation functions take a fuel argument and give up with the
`Exn.nofuel` artifact when it reaches zero; each consumes one unit of fuel
on entry, so all recursion is structural on the fuel.  The host built-ins
installed by `setup_builtins` are not modelled (no claim exercises them);
`main.py` aside, everything reachable from `eval_statement` and
`eval_expression` is transcribed. -/

set_option maxHeartbeats 2000000 in
mutual

/-- `Interpreter.eval_expression`. -/
def eval_expression : Nat → Node → St → Res × St
  | 0, _, st => (.exn .nofuel, st)
  | fuel + 1, node, st =>
    match node with
    | .intLiteral n => (.ok (.int n), st)
    | .floatLiteral q => (.ok (.float q), st)
    | .stringLiteral s => (.ok (.str s), st)
    | .boolLiteral b => (.ok (.bool b), st)
    | .nullLiteral => (.ok .null, st)
    | .arrayLiteral elems =>
      match eval_expr_list fuel elems st with
      | (.error e, st1) => (.exn e, st1)
      | (.ok vs, st1) =>
        let al := alloc_array st1 vs
        (.ok (.arr al.1), al.2)
    | .dictLiteral pairs =>
      match eval_dict_pairs fuel pairs [] st with
      | (.error e, st1) => (.exn e, st1)
      | (.ok kvs, st1) =>
        let al := alloc_dict st1 kvs
        (.ok (.dict al.1), al.2)
    | .identifier name =>
      match env_get st name with
      | .ok v => (.ok v, st)
      | .error m => (.exn (.host m), st)
    | .memberAccess objE mem =>
      match eval_expression fuel objE st with
      | (.exn e, st1) => (.exn e, st1)
      | (.ok objv, st1) =>
        match get_member st1 objv mem with
        | .ok v => (.ok v, st1)
        | .error m => (.exn (.host m), st1)
    | .binaryOp l op r =>
      match eval_expression fuel l st with
      | (.exn e, st1) => (.exn e, st1)
      | (.ok lv, st1) =>
        match eval_expression fuel r st1 with
        | (.exn e, st2) => (.exn e, st2)
        | (.ok rv, st2) =>
          -- array concatenation with + is special-cased before the
          -- operator table
          match lv, rv with
          | .arr a, .arr b =>
            if op = "+" then
              let la := (st2.arrays.get? a).getD []
              let lb := (st2.arrays.get? b).getD []
              let al := alloc_array st2 (la ++ lb)
              (.ok (.arr al.1), al.2)
            else binDispatch st2 lv op rv
          | _, _ => binDispatch st2 lv op rv
    | .unaryOp op e =>
      match eval_expression fuel e st with
      | (.exn ex, st1) => (.exn ex, st1)
      | (.ok v, st1) =>
        match eval_unary_op st1 op v with
        | .ok w => (.ok w, st1)
        | .error m => (.exn (.host m), st1)
    | .indexAccess objE idxE =>
      match eval_expression fuel objE st with
      | (.exn e, st1) => (.exn e, st1)
      | (.ok objv, st1) =>
        match eval_expression fuel idxE st1 with
        | (.exn e, st2) => (.exn e, st2)
        | (.ok idxv, st2) =>
          match objv with
          | .arr r =>
            match asPyInt idxv with
            | none => (.exn (.host "Array index must be an integer"), st2)
            | some i =>
              let l := (st2.arrays.get? r).getD []
              if i < 0 ∨ (l.length : Int) ≤ i then
                (.exn (.host ("Array index out of bounds: " ++ pyStr idxv)), st2)
              else (.ok ((l.get? i.toNat).getD .null), st2)
          | .dict r =>
            match idxv with
            | .str s =>
              match lookupAssoc ((st2.dicts.get? r).getD []) s with
              | some v => (.ok v, st2)
              | none => (.exn (.host ("Dictionary key not found: " ++ s)), st2)
            | _ => (.exn (.host "Dictionary key must be a string"), st2)
          | .str s =>
            match asPyInt idxv with
            | none => (.exn (.host "String index must be an integer"), st2)
            | some i =>
              if i < 0 ∨ (s.length : Int) ≤ i then
                (.exn (.host ("String index out of bounds: " ++ pyStr idxv)), st2)
              else
                (.ok (.str (String.mk ((s.toList.get? i.toNat).getD ' ' :: []))), st2)
          | _ => (.exn (.host ("Cannot index type " ++ pyTypeName objv)), st2)
    | .sliceAccess objE startE stopE =>
      match eval_expression fuel objE st with
      | (.exn e, st1) => (.exn e, st1)
      | (.ok objv, st1) =>
        match eval_expression fuel startE st1 with
        | (.exn e, st2) => (.exn e, st2)
        | (.ok startv, st2) =>
          match eval_expression fuel stopE st2 with
          | (.exn e, st3) => (.exn e, st3)
          | (.ok stopv, st3) =>
            match asPyInt startv, asPyInt stopv with
            | some a, some b =>
              match objv with
              | .arr r =>
                let l := (st3.arrays.get? r).getD []
                let al := alloc_array st3 (pySlice l a b)
                (.ok (.arr al.1), al.2)
              | .str s =>
                (.ok (.str (String.mk (pySlice s.toList a b))), st3)
              | _ => (.exn (.host ("Cannot slice type " ++ pyTypeName objv)), st3)
            | _, _ => (.exn (.host "Slice indices must be integers"), st3)
    | .functionCall name args =>
      match env_get st name with
      | .error m => (.exn (.host m), st)
      | .ok fv =>
        match eval_expr_list fuel args st with
        | (.error e, st1) => (.exn e, st1)
        | (.ok argv, st1) =>
          match fv with
          -- callable(func) and not isinstance(func, Function): a bound method
          | .boundMethod i m => call_method fuel (.inst i) m argv st1
          | .func r => call_function fuel r argv st1
          | _ => (.exn (.host (name ++ " is not a function")), st1)
    | .methodCall objE m args =>
      match eval_expression fuel objE st with
      | (.exn e, st1) => (.exn e, st1)
      | (.ok objv, st1) =>
        match eval_expr_list fuel args st1 with
        | (.error e, st2) => (.exn e, st2)
        | (.ok argv, st2) => call_method fuel objv m argv st2
    | .newExpression cname args =>
      match env_get st cname with
      | .error m => (.exn (.host m), st)
      | .ok cv =>
        match cv with
        | .cls r =>
          match eval_expr_list fuel args st with
          | (.error e, st1) => (.exn e, st1)
          | (.ok argv, st1) => instantiate_class fuel r argv st1
        | _ => (.exn (.host (cname ++ " is not a class")), st)
    | other => (.exn (.host ("Unknown expression type: " ++ nodeTypeName other)), st)

termination_by structural fuel => fuel

/-- Left-to-right evaluation of an expression list (arguments, array
literal elements). -/
def eval_expr_list : Nat → List Node → St → Except Exn (List Val) × St
  | 0, _, st => (.error .nofuel, st)
  | _ + 1, [], st => (.ok [], st)
  | fuel + 1, e :: rest, st =>
    match eval_expression fuel e st with
    | (.exn ex, st1) => (.error ex, st1)
    | (.ok v, st1) =>
      match eval_expr_list fuel rest st1 with
      | (.ok vs, st2) => (.ok (v :: vs), st2)
      | r => r

termination_by structural fuel => fuel

/-- Dict-literal evaluation: key, string check, value, insert, in source
order. -/
def eval_dict_pairs : Nat → List (Node × Node) → List (String × Val) → St →
    Except Exn (List (String × Val)) × St
  | 0, _, _, st => (.error .nofuel, st)
  | _ + 1, [], acc, st => (.ok acc, st)
  | fuel + 1, (ke, ve) :: rest, acc, st =>
    match eval_expression fuel ke st with
    | (.exn ex, st1) => (.error ex, st1)
    | (.ok kv, st1) =>
      match kv with
      | .str s =>
        match eval_expression fuel ve st1 with
        | (.exn ex, st2) => (.error ex, st2)
        | (.ok vv, st2) => eval_dict_pairs fuel rest (setAssoc acc s vv) st2
      | _ => (.error (.host "Dictionary keys must be strings"), st1)

termination_by structural fuel => fuel

/-- `Interpreter.eval_statement`. -/
def eval_statement : Nat → Node → St → Res × St
  | 0, _, st => (.exn .nofuel, st)
  | fuel + 1, node, st =>
    match node with
    | .varDeclaration name value =>
      match eval_expression fuel value st with
      | (.exn e, st1) => (.exn e, st1)
      | (.ok v, st1) => (.ok .null, env_define st1 name v)
    | .assignment target value =>
      match eval_expression fuel value st with
      | (.exn e, st1) => (.exn e, st1)
      | (.ok v, st1) =>
        match target with
        | .identifier n =>
          match env_set st1 n v with
          | .ok st2 => (.ok .null, st2)
          | .error m => (.exn (.host m), st1)
        | .indexAccess objE idxE =>
          match eval_expression fuel objE st1 with
          | (.exn e, st2) => (.exn e, st2)
          | (.ok objv, st2) =>
            match eval_expression fuel idxE st2 with
            | (.exn e, st3) => (.exn e, st3)
            | (.ok idxv, st3) =>
              match objv with
              | .arr r =>
                match asPyInt idxv with
                | none => (.exn (.host "Array index must be an integer"), st3)
                | some i =>
                  -- plain Python item assignment obj[index] = value:
                  -- a negative index counts from the end of the list, and
                  -- an index out of that range raises IndexError
                  let l := (st3.arrays.get? r).getD []
                  let j := if i < 0 then i + l.length else i
                  if 0 ≤ j ∧ j < (l.length : Int) then
                    (.ok .null,
                     { st3 with arrays := st3.arrays.set r (l.set j.toNat v) })
                  else
                    (.exn (.host "list assignment index out of range"), st3)
              | .dict r =>
                match idxv with
                | .str s =>
                  let l := (st3.dicts.get? r).getD []
                  (.ok .null, { st3 with dicts := st3.dicts.set r (setAssoc l s v) })
                | _ => (.exn (.host "Dictionary key must be a string"), st3)
              | .str _ => (.exn (.host "Strings are immutable"), st3)
              | _ => (.exn (.host ("Cannot index type " ++ pyTypeName objv)), st3)
        | .memberAccess objE mem =>
          match eval_expression fuel objE st1 with
          | (.exn e, st2) => (.exn e, st2)
          | (.ok objv, st2) =>
            match set_member st2 objv mem v with
            | .ok st3 => (.ok .null, st3)
            | .error m => (.exn (.host m), st2)
        -- no isinstance branch matches any other target: the statement
        -- silently does nothing (the RHS has still been evaluated)
        | _ => (.ok .null, st1)
    | .functionDef name params body =>
      let al := alloc_func st ⟨name, params, body, st.current_env⟩
      (.ok .null, env_define al.2 name (.func al.1))
    | .classDef name members methods =>
      let al := alloc_class st ⟨name, members, methods, st.current_env⟩
      (.ok .null, env_define al.2 name (.cls al.1))
    | .returnStmt v? =>
      match v? with
      | none => (.exn (.ret .null), st)
      | some e =>
        match eval_expression fuel e st with
        | (.exn ex, st1) => (.exn ex, st1)
        | (.ok v, st1) => (.exn (.ret v), st1)
    | .ifStatement c tb eb =>
      match eval_expression fuel c st with
      | (.exn ex, st1) => (.exn ex, st1)
      | (.ok v, st1) =>
        if is_truthy st1 v then execute_block fuel tb st1
        else
          -- elif node.else_block: an absent and an empty else both skip
          match eb with
          | some (s :: ss) => execute_block fuel (s :: ss) st1
          | _ => (.ok .null, st1)
    | .whileStatement c body => while_loop fuel c body st
    | .foreachStatement kv vv coll body =>
      match eval_expression fuel coll st with
      | (.exn ex, st1) => (.exn ex, st1)
      | (.ok v, st1) =>
        match v with
        | .arr r => foreach_arr fuel kv vv r body 0 st1
        | .dict r => foreach_dict fuel kv vv ((st1.dicts.get? r).getD []) body st1
        | _ => (.exn (.host ("Cannot iterate over " ++ pyTypeName v)), st1)
    | .tryCatch tb cvar cb =>
      match eval_statements fuel tb st with
      | (.exn (.tiny m), st1) =>
        -- except TinyException: only raise/assert errors are caught here
        let prev := st1.current_env
        let al := alloc_frame st1 prev [(cvar, .str m)]
        let st2 := { al.2 with current_env := al.1 }
        match eval_statements fuel cb st2 with
        | (.ok _, st3) => (.ok .null, { st3 with current_env := prev })
        -- the restore of current_env is not in a finally block: anything
        -- unwinding out of the catch block leaves the catch frame current
        | (r, st3) => (r, st3)
      | r => r
    | .raiseStmt e meta =>
      match eval_expression fuel e st with
      | (.exn ex, st1) => (.exn ex, st1)
      | (.ok v, st1) =>
        (.exn (.tiny (locString meta ++ ": " ++ pyStr v)), st1)
    | .assertStmt e msg meta =>
      match eval_expression fuel e st with
      | (.exn ex, st1) => (.exn ex, st1)
      | (.ok v, st1) =>
        if is_truthy st1 v then (.ok .null, st1)
        else
          match msg with
          | some m =>
            match eval_expression fuel m st1 with
            | (.exn ex, st2) => (.exn ex, st2)
            | (.ok mv, st2) =>
              (.exn (.tiny (locString meta ++ ": " ++ pyStr mv)), st2)
          | none => (.exn (.tiny (locString meta ++ ": Assertion failed")), st1)
    | .breakStmt => (.exn .brk, st)
    | .continueStmt => (.exn .cont, st)
    | .functionCall n args => eval_expression fuel (.functionCall n args) st
    | .methodCall o m args => eval_expression fuel (.methodCall o m args) st
    | other => (.exn (.host ("Unknown statement type: " ++ nodeTypeName other)), st)

termination_by structural fuel => fuel

/-- Statement-list execution: stop at the first non-normal outcome. -/
def eval_statements : Nat → List Node → St → Res × St
  | 0, _, st => (.exn .nofuel, st)
  | _ + 1, [], st => (.ok .null, st)
  | fuel + 1, s :: rest, st =>
    match eval_statement fuel s st with
    | (.ok _, st1) => eval_statements fuel rest st1
    | r => r

termination_by structural fuel => fuel

/-- `Interpreter._execute_block`: run statements in a fresh child frame and
restore the previous environment on every path (try/finally). -/
def execute_block : Nat → List Node → St → Res × St
  | 0, _, st => (.exn .nofuel, st)
  | fuel + 1, stmts, st =>
    let prev := st.current_env
    let al := alloc_frame st prev []
    let r := eval_statements fuel stmts { al.2 with current_env := al.1 }
    (r.1, { r.2 with current_env := prev })

termination_by structural fuel => fuel

/-- The `while True` loop of the `WhileStatement` branch: condition each
round, body in a fresh block, break exits, continue re-loops. -/
def while_loop : Nat → Node → List Node → St → Res × St
  | 0, _, _, st => (.exn .nofuel, st)
  | fuel + 1, c, body, st =>
    match eval_expression fuel c st with
    | (.exn ex, st1) => (.exn ex, st1)
    | (.ok v, st1) =>
      if ¬ is_truthy st1 v then (.ok .null, st1)
      else
        match execute_block fuel body st1 with
        | (.ok _, st2) => while_loop fuel c body st2
        | (.exn .brk, st2) => (.ok .null, st2)
        | (.exn .cont, st2) => while_loop fuel c body st2
        | (.exn e, st2) => (.exn e, st2)

termination_by structural fuel => fuel

/-- Array branch of the `ForeachStatement` loop: a cursor over the live
list (re-read from the heap each round, like a Python list iterator), a
fresh per-iteration frame binding the index and element variables, the
environment restored in a finally, continue absorbed per iteration and
break by the surrounding loop. -/
def foreach_arr : Nat → String → String → Nat → List Node → Nat → St → Res × St
  | 0, _, _, _, _, _, st => (.exn .nofuel, st)
  | fuel + 1, kv, vv, r, body, idx, st =>
    let l := (st.arrays.get? r).getD []
    match l.get? idx with
    | none => (.ok .null, st)
    | some v =>
      let prev := st.current_env
      let al := alloc_frame st prev (setAssoc (setAssoc [] kv (Val.int idx)) vv v)
      let st1 := { al.2 with current_env := al.1 }
      match eval_statements fuel body st1 with
      | (.ok _, st2) =>
        foreach_arr fuel kv vv r body (idx + 1) { st2 with current_env := prev }
      | (.exn .cont, st2) =>
        foreach_arr fuel kv vv r body (idx + 1) { st2 with current_env := prev }
      | (.exn .brk, st2) => (.ok .null, { st2 with current_env := prev })
      | (.exn e, st2) => (.exn e, { st2 with current_env := prev })

termination_by structural fuel => fuel

/-- Dict branch of the `ForeachStatement` loop, over the items snapshot
taken at loop entry (Python iterates the live dict and raises if it changes
size during iteration; no claim depends on that difference). -/
def foreach_dict : Nat → String → String → List (String × Val) → List Node → St → Res × St
  | 0, _, _, _, _, st => (.exn .nofuel, st)
  | _ + 1, _, _, [], _, st => (.ok .null, st)
  | fuel + 1, kv, vv, (k, v) :: rest, body, st =>
    let prev := st.current_env
    let al := alloc_frame st prev (setAssoc (setAssoc [] kv (.str k)) vv v)
    let st1 := { al.2 with current_env := al.1 }
    match eval_statements fuel body st1 with
    | (.ok _, st2) => foreach_dict fuel kv vv rest body { st2 with current_env := prev }
    | (.exn .cont, st2) => foreach_dict fuel kv vv rest body { st2 with current_env := prev }
    | (.exn .brk, st2) => (.ok .null, { st2 with current_env := prev })
    | (.exn e, st2) => (.exn e, { st2 with current_env := prev })

termination_by structural fuel => fuel

/-- User-function invocation from the `FunctionCall` branch: arity check, a
fresh frame chained from the captured environment, parameters bound, body
run, `ReturnException` absorbed, the caller environment restored in a
finally. -/
def call_function : Nat → Nat → List Val → St → Res × St
  | 0, _, _, st => (.exn .nofuel, st)
  | fuel + 1, fref, args, st =>
    match st.funcs.get? fref with
    | none => (.exn (.host "is not a function"), st)  -- dangling reference
    | some f =>
      if args.length ≠ f.params.length then
        (.exn (.host ("Function " ++ f.name ++ " expects " ++
          toString f.params.length ++ " arguments, got " ++
          toString args.length)), st)
      else
        let vars := (f.params.zip args).foldl
          (fun acc pa => setAssoc acc pa.1 pa.2) []
        let prev := st.current_env
        let al := alloc_frame st f.env vars
        let st1 := { al.2 with current_env := al.1 }
        match eval_statements fuel f.body st1 with
        | (.ok _, st2) => (.ok .null, { st2 with current_env := prev })
        | (.exn (.ret v), st2) => (.ok v, { st2 with current_env := prev })
        | (.exn e, st2) => (.exn e, { st2 with current_env := prev })

termination_by structural fuel => fuel

/-- `Interpreter.call_method`: method lookup, privacy check, arity check,
frame chained from the class environment with this/self and parameters,
receiver pushed, body run, return absorbed; the finally restores the
environment and pops the receiver stack on every path. -/
def call_method : Nat → Val → String → List Val → St → Res × St
  | 0, _, _, _, st => (.exn .nofuel, st)
  | fuel + 1, objv, mname, args, st =>
    match objv with
    | .inst r =>
      match st.insts.get? r with
      | none => (.exn (.host "Method call only valid on class instances"), st)
      | some inst =>
        match st.classes.get? inst.class_value with
        | none => (.exn (.host "Method call only valid on class instances"), st)
        | some c =>
          match methodLookup c mname with
          | none =>
            (.exn (.host ("Method " ++ mname ++ " not found on class " ++ c.name)), st)
          | some pb =>
            if startsWithUnderscore mname ∧ ¬ is_internal_access st r then
              (.exn (.host ("Cannot access private method " ++ mname ++
                " of class " ++ c.name)), st)
            else if args.length ≠ pb.1.length then
              (.exn (.host ("Method " ++ mname ++ " expects " ++
                toString pb.1.length ++ " arguments, got " ++
                toString args.length)), st)
            else
              let vars := (pb.1.zip args).foldl
                (fun acc pa => setAssoc acc pa.1 pa.2)
                [("this", Val.inst r), ("self", Val.inst r)]
              let prev := st.current_env
              let al := alloc_frame st c.env vars
              let st1 := { al.2 with current_env := al.1, this_stack := r :: al.2.this_stack }
              match eval_statements fuel pb.2 st1 with
              | (.ok _, st2) => (.ok .null, popCtx st2 prev)
              | (.exn (.ret v), st2) => (.ok v, popCtx st2 prev)
              | (.exn e, st2) => (.exn e, popCtx st2 prev)
    | _ => (.exn (.host "Method call only valid on class instances"), st)

termination_by structural fuel => fuel

/-- `Interpreter.instantiate_class`: allocate the instance, evaluate member
initialisers with this/self bound and the receiver pushed (restored in a
finally), then run `init` (arity-checked) or reject arguments. -/
def instantiate_class : Nat → Nat → List Val → St → Res × St
  | 0, _, _, st => (.exn .nofuel, st)
  | fuel + 1, cref, args, st =>
    match st.classes.get? cref with
    | none => (.exn (.host "is not a class"), st)  -- dangling reference
    | some c =>
      let ai := alloc_inst st cref
      let iid := ai.1
      let prev := ai.2.current_env
      let al := alloc_frame ai.2 c.env
        [("this", Val.inst iid), ("self", Val.inst iid)]
      let st1 := { al.2 with current_env := al.1, this_stack := iid :: al.2.this_stack }
      match init_members fuel iid c.members st1 with
      | (.exn e, st2) => (.exn e, popCtx st2 prev)
      | (.ok _, st2) =>
        let st3 := popCtx st2 prev
        match methodLookup c "init" with
        | some pb =>
          if args.length ≠ pb.1.length then
            (.exn (.host ("Constructor for " ++ c.name ++ " expects " ++
              toString pb.1.length ++ " arguments, got " ++
              toString args.length)), st3)
          else
            match call_method fuel (.inst iid) "init" args st3 with
            | (.ok _, st4) => (.ok (.inst iid), st4)
            | (.exn e, st4) => (.exn e, st4)
        | none =>
          if args.isEmpty then (.ok (.inst iid), st3)
          else
            (.exn (.host ("Class " ++ c.name ++
              " constructor does not take arguments")), st3)

termination_by structural fuel => fuel

/-- The member-initialiser loop of `instantiate_class`: evaluate each
declared initialiser in order and store it in the instance field map. -/
def init_members : Nat → Nat → List (String × Node) → St → Res × St
  | 0, _, _, st => (.exn .nofuel, st)
  | _ + 1, _, [], st => (.ok .null, st)
  | fuel + 1, iid, (nm, e) :: rest, st =>
    match eval_expression fuel e st with
    | (.exn ex, st1) => (.exn ex, st1)
    | (.ok v, st1) =>
      match st1.insts.get? iid with
      | none => (.exn (.host "instance missing"), st1)  -- dangling reference
      | some inst =>
        let inst2 := { inst with fields := setAssoc inst.fields nm v }
        init_members fuel iid rest { st1 with insts := st1.insts.set iid inst2 }

termination_by structural fuel => fuel

end

/-- `Interpreter.interpret`: run the top-level statements in order. -/
def interpret (fuel : Nat) (statements : List Node) (st : St) : Res × St :=
  eval_statements fuel statements st

/-- A fresh interpreter state: one global frame, empty heaps.  The host
built-ins that `setup_builtins` installs into the global environment are
not modelled. -/
def init_state : St :=
  { frames := [⟨none, []⟩], arrays := [], dicts := [], funcs := [],
    classes := [], insts := [], current_env := 0, this_stack := [] }

/-! ## Concrete states used to instantiate the claims -/

/-- One global frame binding `a` to the array `[1, 2]` and `v` to `5`. -/
def stArr : St :=
  { init_state with
    frames := [⟨none, [("a", .arr 0), ("v", .int 5)]⟩],
    arrays := [[.int 1, .int 2]] }

/-- One global frame binding `x` to the array `[10, 20]` and `s` to the
string `ab`. -/
def stIdx : St :=
  { init_state with
    frames := [⟨none, [("x", .arr 0), ("s", .str "ab")]⟩],
    arrays := [[.int 10, .int 20]] }

/-- A class `C` with private member `_x` and private method `_m` (no
parameters, empty body), and two instances of it: instance 0 (the target,
with `_x` = 7) and instance 1 (a potential receiver). -/
def stPriv : St :=
  { init_state with
    classes := [⟨"C", [("_x", .intLiteral 0)], [("_m", [], [])], 0⟩],
    insts := [⟨0, [("_x", .int 7)]⟩, ⟨0, []⟩] }

/-- The condition of claim C8, following the claim text rather than the
source: the currently executing dynamic receiver (the top of the receiver
stack) is an instance of the same class as the target instance.  It is to
be compared with the source-side `is_internal_access`. -/
def specSameClassReceiver (st : St) (inst : InstV) : Prop :=
  ∃ t rest top, st.this_stack = t :: rest ∧ st.insts.get? t = some top ∧
    top.class_value = inst.class_value

/-! ## Theorems for the claims -/

/-- C7: the claim says tokenizing `1..2` yields INT(1), DOTDOT, INT(2); the
lexer instead lets `read_number` consume the first dot into the number, so
the actual tokens are FLOAT(1.0), DOT, INT(2) (and EOF).  This theorem
evaluates the lexer at the failing input and identifies the float payload. -/
theorem claim_C7_dotdot_lexing :
    tokenize "1..2" = .ok [mkTok .FLOAT (.float (floatOfParts ['1'] [])) 1 1,
      mkTok .DOT .none 1 3, mkTok .INT (.int 2) 1 4, mkTok .EOF .none 1 5] ∧
    floatOfParts ['1'] [] = 1 := by
  constructor
  · rfl
  · have h1 : digitsToNat ['1'] = 1 := rfl
    have h2 : digitsToNat ([] : List Char) = 0 := rfl
    simp [floatOfParts, h1, h2]

/-- C2: the claim says a statement led by the keyword token of `func`
parses to a FunctionDef.  The lexer does produce the FUNC keyword token,
but `parse_statement` then evaluates the attribute `TokenType.FUN`, which
the enum does not define, so every such parse raises AttributeError
instead of returning a FunctionDef. -/
theorem claim_C2_func_keyword_parse :
    (lexed "func f() {}").head?.map Token.type = some TokenType.FUNC ∧
    parse_statement (lexed "func f() {}") 0 = .error (.attributeError "FUN") := by
  exact ⟨rfl, rfl⟩

/-- C3: the claim says `for (i = start .. end)` parses to a ForStatement
and executes as a half-open integer range loop.  In this source tree
`ast_nodes_2.py` defines no `ForStatement` class at all, and
`parse_statement` on a `for`-led token list raises (the dispatch chain dies
evaluating `TokenType.FUN` before even reaching the FOR branch, and the
FOR branch itself would fail importing `ForStatement`); `interpreter_3.py`
likewise has no range-for branch, so no range loop can run. -/
theorem claim_C3_for_statement_missing :
    parse_statement (lexed "for (i = 0 .. 3) { }") 0 = .error (.attributeError "FUN") ∧
    astNodes2ClassNames.contains "ForStatement" = false := by
  exact ⟨rfl, rfl⟩

/-- C1 counterexample: the claim says every language-level error unwinding
out of a try-block is caught.  A try-block reading an undefined variable
raises a plain Python exception, which `except TinyException` does not
catch: the error propagates past the TryCatch and the catch-block never
runs. -/
theorem claim_C1_counterexample :
    eval_statement 10
      (.tryCatch [.varDeclaration "y" (.identifier "x")] "e"
        [.varDeclaration "ran" (.boolLiteral true)]) init_state
      = (.exn (.host "Undefined variable: x"), init_state) := by
  rfl

/-- C1 as amended: only a TinyException (a `raise`/`assert` error) that
unwinds out of the try-block is caught; the catch-block then runs in a
fresh child frame binding the catch variable to the message string, with
normal completion of the catch-block restoring the environment, and the
tiny error does not propagate.  The second conjunct checks that the catch
variable indeed reads back as the message in the catch environment. -/
theorem claim_C1_amended (fuel : Nat) (tb cb : List Node) (cvar m : String)
    (st st1 : St)
    (h : eval_statements fuel tb st = (.exn (.tiny m), st1)) :
    eval_statement (fuel + 1) (.tryCatch tb cvar cb) st =
      (match eval_statements fuel cb
          { st1 with
            frames := st1.frames ++ [⟨some st1.current_env, [(cvar, .str m)]⟩],
            current_env := st1.frames.length } with
        | (.ok _, st3) => (Res.ok Val.null, { st3 with current_env := st1.current_env })
        | (r, st3) => (r, st3)) ∧
    env_get
      { st1 with
        frames := st1.frames ++ [⟨some st1.current_env, [(cvar, .str m)]⟩],
        current_env := st1.frames.length } cvar = .ok (.str m) := by
  constructor
  · simp only [eval_statement, h, alloc_frame]
  · simp only [env_get]
    have hget : (st1.frames ++ [(⟨some st1.current_env, [(cvar, .str m)]⟩ : Frame)]).get?
        st1.frames.length = some ⟨some st1.current_env, [(cvar, .str m)]⟩ :=
      List.get?_concat_length _ _
    simp [env_get_aux, hget, lookupAssoc]

/-- C1 witness: a concrete raise caught by a concrete try/catch. -/
theorem claim_C1_witness :
    (eval_statements 5 [Node.raiseStmt (.stringLiteral "boom") none] init_state
      = (.exn (.tiny "<input>:0: boom"), init_state)) ∧
    eval_statement 6
      (.tryCatch [Node.raiseStmt (.stringLiteral "boom") none] "e" []) init_state
      = (.ok .null,
         { init_state with
           frames := [⟨none, []⟩, ⟨some 0, [("e", .str "<input>:0: boom")]⟩] }) := by
  refine ⟨rfl, ?_⟩
  have h := claim_C1_amended 5 [Node.raiseStmt (.stringLiteral "boom") none] []
    "e" "<input>:0: boom" init_state init_state rfl
  rw [h.1]
  rfl

/-- The operator table on `and`: the truthiness conjunction of the two
already-evaluated operands. -/
theorem eval_binary_op_and (st : St) (l r : Val) :
    eval_binary_op st l "and" r =
      (.ok (.bool (is_truthy st l && is_truthy st r)), st) := by
  rfl

/-- The operator table on `or`: the truthiness disjunction of the two
already-evaluated operands. -/
theorem eval_binary_op_or (st : St) (l r : Val) :
    eval_binary_op st l "or" r =
      (.ok (.bool (is_truthy st l || is_truthy st r)), st) := by
  rfl

/-- C4 counterexample: the claim says `false and (1/0)` returns false
without raising because the right operand is not evaluated.  The
interpreter evaluates both operands before dispatching on the operator, so
the division by zero is raised. -/
theorem claim_C4_counterexample :
    eval_expression 10
      (.binaryOp (.boolLiteral false) "and"
        (.binaryOp (.intLiteral 1) "/" (.intLiteral 0))) init_state
      = (.exn (.host "Division by zero"), init_state) := by
  rfl

/-- C4 as amended: `a and b` and `a or b` always evaluate both operands
(left first); whenever both evaluations produce values the result is the
boolean combination of their truthiness. -/
theorem claim_C4_amended (fuel : Nat) (l r : Node) (st st1 st2 : St)
    (vl vr : Val)
    (hl : eval_expression fuel l st = (.ok vl, st1))
    (hr : eval_expression fuel r st1 = (.ok vr, st2)) :
    eval_expression (fuel + 1) (.binaryOp l "and" r) st
      = (.ok (.bool (is_truthy st2 vl && is_truthy st2 vr)), st2) ∧
    eval_expression (fuel + 1) (.binaryOp l "or" r) st
      = (.ok (.bool (is_truthy st2 vl || is_truthy st2 vr)), st2) := by
  constructor
  · simp only [eval_expression, hl, hr]
    cases vl <;> cases vr <;>
      simp [binDispatch, eval_binary_op_and]
  · simp only [eval_expression, hl, hr]
    cases vl <;> cases vr <;>
      simp [binDispatch, eval_binary_op_or]

/-- C4 witness: `true and true` and `false or true` on literal operands. -/
theorem claim_C4_witness :
    (eval_expression 1 (.boolLiteral true) init_state
      = (.ok (.bool true), init_state)) ∧
    eval_expression 2 (.binaryOp (.boolLiteral true) "and" (.boolLiteral true))
        init_state = (.ok (.bool true), init_state) := by
  refine ⟨rfl, ?_⟩
  have h := (claim_C4_amended 1 (.boolLiteral true) (.boolLiteral true)
    init_state init_state init_state (.bool true) (.bool true) rfl rfl).1
  simpa using h

/-- C5 counterexample: the claim says `a[i] = v` fails whenever `i` is
negative.  With `a` bound to `[1, 2]`, the assignment `a[-1] = 5` succeeds
and replaces the LAST element, giving `[1, 5]`: negative indices count
from the end as in the host language. -/
theorem claim_C5_counterexample :
    eval_statement 10
      (.assignment (.indexAccess (.identifier "a") (.intLiteral (-1)))
        (.identifier "v")) stArr
      = (.ok .null, { stArr with arrays := [[.int 1, .int 5]] }) := by
  rfl

/-- C5 as amended: for an array of length n, `a[i] = v` with 0 <= i < n
replaces exactly element i (all other elements and the length unchanged,
the update being a pointwise `List.set`); with -n <= i < 0 it replaces
element n + i, counting from the end; for any other i it fails with the
host IndexError, leaving the state unchanged. -/
theorem claim_C5_amended (fuel : Nat) (st : St) (r : Nat) (l : List Val)
    (i : Int) (v : Val)
    (ha : env_get st "a" = .ok (.arr r))
    (hv : env_get st "v" = .ok v)
    (hl : st.arrays.get? r = some l) :
    eval_statement (fuel + 2)
      (.assignment (.indexAccess (.identifier "a") (.intLiteral i))
        (.identifier "v")) st
      = if 0 ≤ i ∧ i < l.length then
          (.ok .null, { st with arrays := st.arrays.set r (l.set i.toNat v) })
        else if -(l.length : Int) ≤ i ∧ i < 0 then
          (.ok .null,
           { st with arrays := st.arrays.set r (l.set (i + l.length).toNat v) })
        else (.exn (.host "list assignment index out of range"), st) := by
  simp only [eval_statement, eval_expression, ha, hv, hl, asPyInt, Option.getD]
  by_cases h0 : i < 0
  · by_cases h1 : -(l.length : Int) ≤ i
    · have hj : 0 ≤ i + l.length ∧ i + l.length < (l.length : Int) := by omega
      have hno : ¬ (0 ≤ i ∧ i < (l.length : Int)) := by omega
      simp [h0, hj, hno, h1]
    · have hj : ¬ (0 ≤ i + l.length ∧ i + l.length < (l.length : Int)) := by omega
      have hno : ¬ (0 ≤ i ∧ i < (l.length : Int)) := by omega
      simp [h0, hj, hno, h1]
      omega
  · by_cases h3 : i < (l.length : Int)
    · have hj : 0 ≤ i ∧ i < (l.length : Int) := by omega
      simp [h0, hj]
    · have hj : ¬ (0 ≤ i ∧ i < (l.length : Int)) := by omega
      have hn2 : ¬ (-(l.length : Int) ≤ i ∧ i < 0) := by omega
      simp [h0, hj, hn2]

/-- C5 witness: in-range assignment `a[0] = 5` on `[1, 2]` gives `[5, 2]`. -/
theorem claim_C5_witness :
    env_get stArr "a" = .ok (.arr 0) ∧
    eval_statement 2
      (.assignment (.indexAccess (.identifier "a") (.intLiteral 0))
        (.identifier "v")) stArr
      = (.ok .null, { stArr with arrays := [[.int 5, .int 2]] }) := by
  refine ⟨rfl, ?_⟩
  have h := claim_C5_amended 0 stArr 0 [.int 1, .int 2] 0 (.int 5) rfl rfl rfl
  simpa using h

/-- C9: `/` on two integers with a nonzero divisor is floor division; with
any float operand and a nonzero divisor it is exact float division (floats
being modelled by exact rationals); `/` and `%` both fail with a zero
divisor, of either numeric type. -/
theorem claim_C9_division (st : St) (a b : Int) (q r : Rat)
    (hb : b ≠ 0) (hr : r ≠ 0) :
    (eval_binary_op st (.int a) "/" (.int b)).1 = .ok (.int (Int.fdiv a b)) ∧
    (eval_binary_op st (.float q) "/" (.float r)).1 = .ok (.float (q / r)) ∧
    (eval_binary_op st (.int a) "/" (.float r)).1 = .ok (.float ((a : Rat) / r)) ∧
    (eval_binary_op st (.float q) "/" (.int b)).1 = .ok (.float (q / (b : Rat))) ∧
    (eval_binary_op st (.int a) "/" (.int 0)).1 = .error "Division by zero" ∧
    (eval_binary_op st (.float q) "/" (.float 0)).1 = .error "Division by zero" ∧
    (eval_binary_op st (.int a) "%" (.int 0)).1 = .error "Modulo by zero" ∧
    (eval_binary_op st (.float q) "%" (.float 0)).1 = .error "Modulo by zero" := by
  have hb1 : pyEq (.int b) (.int 0) = false := by
    simp [pyEq, asNum, PyNum.toRat, hb]
  have hr1 : pyEq (.float r) (.int 0) = false := by
    simp [pyEq, asNum, PyNum.toRat, hr]
  refine ⟨?_, ?_, ?_, ?_, ?_, ?_, ?_, ?_⟩ <;>
    simp [eval_binary_op, hb1, hr1, pyEq, asNum, PyNum.toRat, asPyInt, hb, hr]

/-- C9 witness: `7 / 2` is `3`, `1.0 / 2.0` is `0.5`, `7 / 0` fails. -/
theorem claim_C9_witness :
    (2 : Int) ≠ 0 ∧
    (eval_binary_op init_state (.int 7) "/" (.int 2)).1 = .ok (.int 3) ∧
    (eval_binary_op init_state (.float 1) "/" (.float 2)).1
      = .ok (.float (1 / 2 : Rat)) ∧
    (eval_binary_op init_state (.int 7) "/" (.int 0)).1
      = .error "Division by zero" := by
  have h := claim_C9_division init_state 7 2 1 2 (by norm_num) (by norm_num)
  refine ⟨by norm_num, ?_, h.2.1, h.2.2.2.2.1⟩
  rw [h.1]
  rfl

/-- C10: Python booleans pass the `isinstance(index, int)` test, so `true`
and `false` index arrays and strings as 1 and 0: the access returns
element 1 (resp. 0) when it exists and fails with the bounds error (whose
message prints the boolean) otherwise, never with the non-integer-index
type error. -/
theorem claim_C10_bool_index (fuel : Nat) (st : St) (r : Nat) (l : List Val)
    (s : String)
    (hx : env_get st "x" = .ok (.arr r))
    (hs : env_get st "s" = .ok (.str s))
    (hl : st.arrays.get? r = some l) :
    (eval_expression (fuel + 2) (.indexAccess (.identifier "x") (.boolLiteral true)) st
      = if 1 < l.length then (.ok ((l.get? 1).getD .null), st)
        else (.exn (.host "Array index out of bounds: True"), st)) ∧
    (eval_expression (fuel + 2) (.indexAccess (.identifier "x") (.boolLiteral false)) st
      = if 0 < l.length then (.ok ((l.get? 0).getD .null), st)
        else (.exn (.host "Array index out of bounds: False"), st)) ∧
    (eval_expression (fuel + 2) (.indexAccess (.identifier "s") (.boolLiteral true)) st
      = if 1 < s.length then
          (.ok (.str (String.mk [(s.toList.get? 1).getD ' '])), st)
        else (.exn (.host "String index out of bounds: True"), st)) ∧
    (eval_expression (fuel + 2) (.indexAccess (.identifier "s") (.boolLiteral false)) st
      = if 0 < s.length then
          (.ok (.str (String.mk [(s.toList.get? 0).getD ' '])), st)
        else (.exn (.host "String index out of bounds: False"), st)) := by
  have hl2 : st.arrays[r]? = some l := by simpa using hl
  refine ⟨?_, ?_, ?_, ?_⟩
  · by_cases hb : 1 < l.length
    · have hc : ¬ ((1 : Int) < 0 ∨ (l.length : Int) ≤ 1) := by omega
      simp [eval_expression, hx, hl2, asPyInt, hb, hc]
    · have hc : (1 : Int) < 0 ∨ (l.length : Int) ≤ 1 := by omega
      simp [eval_expression, hx, hl2, asPyInt, hb, hc, pyStr]
  · by_cases hb : 0 < l.length
    · have hc : ¬ ((0 : Int) < 0 ∨ (l.length : Int) ≤ 0) := by omega
      have hne : l ≠ [] := List.ne_nil_of_length_pos hb
      simp [eval_expression, hx, hl2, asPyInt, hb, hc, hne]
    · have hc : (0 : Int) < 0 ∨ (l.length : Int) ≤ 0 := by omega
      have he : l = [] := List.length_eq_zero.mp (by omega)
      simp [eval_expression, hx, hl2, asPyInt, hb, hc, pyStr, he]
  · by_cases hb : 1 < s.length
    · have hc : ¬ ((1 : Int) < 0 ∨ (s.length : Int) ≤ 1) := by omega
      simp [eval_expression, hs, asPyInt, hb, hc]
    · have hc : (1 : Int) < 0 ∨ (s.length : Int) ≤ 1 := by omega
      simp [eval_expression, hs, asPyInt, hb, hc, pyStr]
  · by_cases hb : 0 < s.length
    · have hc : ¬ ((0 : Int) < 0 ∨ (s.length : Int) ≤ 0) := by omega
      have hne : ¬ s.length = 0 := by omega
      simp [eval_expression, hs, asPyInt, hb, hc, hne]
    · have hc : (0 : Int) < 0 ∨ (s.length : Int) ≤ 0 := by omega
      have he : s.length = 0 := by omega
      simp [eval_expression, hs, asPyInt, hb, hc, pyStr, he]

/-- C10 witness: with `x` bound to `[10, 20]` and `s` to `ab`, `x[true]`
is 20 and `s[false]` is `a`. -/
theorem claim_C10_witness :
    env_get stIdx "x" = .ok (.arr 0) ∧
    eval_expression 2 (.indexAccess (.identifier "x") (.boolLiteral true)) stIdx
      = (.ok (.int 20), stIdx) ∧
    eval_expression 2 (.indexAccess (.identifier "s") (.boolLiteral false)) stIdx
      = (.ok (.str "a"), stIdx) := by
  have h := claim_C10_bool_index 0 stIdx 0 [.int 10, .int 20] "ab" rfl rfl rfl
  refine ⟨rfl, ?_, ?_⟩
  · rw [h.1]
    rfl
  · rw [h.2.2.2]
    rfl

/-- The source check `is_internal_access` agrees with the wording of claim
C8: the receiver stack is non-empty and its top is an instance of the same
class as the target instance. -/
theorem is_internal_access_iff (st : St) (i : Nat) (inst : InstV)
    (hi : st.insts.get? i = some inst) :
    is_internal_access st i = true ↔ specSameClassReceiver st inst := by
  have hi2 : st.insts[i]? = some inst := by simpa using hi
  unfold is_internal_access specSameClassReceiver
  cases hts : st.this_stack with
  | nil => simp
  | cons t rest =>
    cases htop : st.insts[t]? with
    | none => simp [hi2, htop]
    | some top => simp [hi2, htop]

/-- C8: with an existing private field (and an existing private
parameterless method), reading or writing the field and calling the method
each succeed exactly when the top of the receiver stack is an instance of
the same class as the target instance; from outside such a method the
access fails. -/
theorem claim_C8_private_access (fuel : Nat) (st : St) (i : Nat) (inst : InstV)
    (cl : ClassV) (fnm mnm : String) (fv v : Val)
    (hi : st.insts.get? i = some inst)
    (hcl : st.classes.get? inst.class_value = some cl)
    (hpf : startsWithUnderscore fnm = true)
    (hpm : startsWithUnderscore mnm = true)
    (hf : lookupAssoc inst.fields fnm = some fv)
    (hm : methodLookup cl mnm = some ([], [])) :
    ((get_member st (.inst i) fnm = .ok fv) ↔ specSameClassReceiver st inst) ∧
    ((set_member st (.inst i) fnm v).isOk = true ↔ specSameClassReceiver st inst) ∧
    (((call_method (fuel + 2) (.inst i) mnm [] st).1 = .ok .null)
      ↔ specSameClassReceiver st inst) := by
  have hint := is_internal_access_iff st i inst hi
  have hi2 : st.insts[i]? = some inst := by simpa using hi
  have hcl2 : st.classes[inst.class_value]? = some cl := by simpa using hcl
  by_cases hacc : is_internal_access st i = true
  · have hspec := hint.mp hacc
    refine ⟨?_, ?_, ?_⟩
    · simp [get_member, hi2, hpf, hacc, hf, hspec]
    · simp [set_member, hi2, hpf, hacc, hf, hspec, Except.isOk, Except.toBool]
    · simp [call_method, hi2, hcl2, hm, hpm, hacc, hspec, eval_statements]
  · have hspec := (not_congr hint).mp hacc
    refine ⟨?_, ?_, ?_⟩
    · simp [get_member, hi2, hpf, hacc, hspec]
    · simp [set_member, hi2, hpf, hacc, hspec, Except.isOk, Except.toBool]
    · simp [call_method, hi2, hcl2, hm, hpm, hacc, hspec]

/-- C8 witness: with the class C of `stPriv` (private field `_x`, private
method `_m`), reading `_x` on instance 0 succeeds when instance 1 (same
class) is the executing receiver, and fails when the receiver stack is
empty. -/
theorem claim_C8_witness :
    startsWithUnderscore "_x" = true ∧
    get_member { stPriv with this_stack := [1] } (.inst 0) "_x" = .ok (.int 7) ∧
    ¬ (get_member stPriv (.inst 0) "_x" = .ok (.int 7)) := by
  have hin := claim_C8_private_access 0 { stPriv with this_stack := [1] } 0
    ⟨0, [("_x", .int 7)]⟩ ⟨"C", [("_x", .intLiteral 0)], [("_m", [], [])], 0⟩
    "_x" "_m" (.int 7) .null rfl rfl (by decide) (by decide) rfl rfl
  have hout := claim_C8_private_access 0 stPriv 0
    ⟨0, [("_x", .int 7)]⟩ ⟨"C", [("_x", .intLiteral 0)], [("_m", [], [])], 0⟩
    "_x" "_m" (.int 7) .null rfl rfl (by decide) (by decide) rfl rfl
  refine ⟨by decide, ?_, ?_⟩
  · exact hin.1.mpr ⟨1, [], ⟨0, []⟩, rfl, rfl, rfl⟩
  · intro hok
    rcases hout.1.mp hok with ⟨t, rest, top, hcons, _, _⟩
    simp [stPriv, init_state] at hcons

/-- The block helper restores the current environment on every path (the
restore is in the try/finally of `_execute_block`). -/
theorem execute_block_restores (fuel : Nat) (ss : List Node) (st : St) :
    ((execute_block fuel ss st).2).current_env = st.current_env := by
  cases fuel with
  | zero => rfl
  | succ n => rfl

/-- Function invocation restores the caller environment on every path:
the error paths never switch it and the body paths restore it in the
finally, whatever the body did. -/
theorem call_function_restores (fuel : Nat) (fref : Nat) (args : List Val)
    (st : St) :
    ((call_function fuel fref args st).2).current_env = st.current_env := by
  cases fuel with
  | zero => rfl
  | succ n =>
    simp only [call_function]
    split
    · rfl
    · split
      · rfl
      · split <;> rfl

/-- Method invocation restores the caller environment on every path. -/
theorem call_method_restores (fuel : Nat) (objv : Val) (mname : String)
    (args : List Val) (st : St) :
    ((call_method fuel objv mname args st).2).current_env = st.current_env := by
  cases fuel with
  | zero => rfl
  | succ n =>
    cases objv <;> try rfl
    case inst r =>
      simp only [call_method]
      split
      · rfl
      · split
        · rfl
        · split
          · rfl
          · split
            · rfl
            · split
              · rfl
              · split <;> rfl

/-- Instantiation restores the caller environment on every path, the
constructor call included. -/
theorem instantiate_class_restores (fuel : Nat) (cref : Nat) (args : List Val)
    (st : St) :
    ((instantiate_class fuel cref args st).2).current_env = st.current_env := by
  cases fuel with
  | zero => rfl
  | succ n =>
    simp only [instantiate_class]
    repeat' split
    all_goals try rfl
    all_goals
      rename_i heq
      have h2 := congrArg Prod.snd heq
      dsimp only at h2
      rw [← h2, call_method_restores]
      rfl

/-- Each foreach iteration over an array restores the environment it
entered with, on every path, so the whole loop does. -/
theorem foreach_arr_restores (fuel : Nat) :
    ∀ (kv vv : String) (r : Nat) (body : List Node) (idx : Nat) (st : St),
    ((foreach_arr fuel kv vv r body idx st).2).current_env = st.current_env := by
  induction fuel with
  | zero => intro kv vv r body idx st; rfl
  | succ n ih =>
    intro kv vv r body idx st
    simp only [foreach_arr]
    split
    · rfl
    · split
      · rw [ih]
      · rw [ih]
      · rfl
      · rfl

/-- Each foreach iteration over a dict items snapshot restores the
environment it entered with, on every path, so the whole loop does. -/
theorem foreach_dict_restores (fuel : Nat) :
    ∀ (kv vv : String) (items : List (String × Val)) (body : List Node) (st : St),
    ((foreach_dict fuel kv vv items body st).2).current_env = st.current_env := by
  induction fuel with
  | zero => intro kv vv items body st; rfl
  | succ n ih =>
    intro kv vv items body st
    cases items with
    | nil => rfl
    | cons kvp rest =>
      simp only [foreach_dict]
      split
      · rw [ih]
      · rw [ih]
      · rfl
      · rfl

/-- C6 counterexample: the claim says the environment is restored on every
exit path, including an exception thrown from inside a catch-block.  A
raise inside the catch-block skips the restore (it is not in a finally):
after the TryCatch the current environment is the catch frame (index 1),
not the frame that was current at entry (index 0). -/
theorem claim_C6_counterexample :
    (eval_statement 10
      (.tryCatch [.raiseStmt (.stringLiteral "a") none] "e"
        [.raiseStmt (.stringLiteral "b") none]) init_state).2.current_env = 1 ∧
    init_state.current_env = 0 ∧
    (eval_statement 10
      (.tryCatch [.raiseStmt (.stringLiteral "a") none] "e"
        [.raiseStmt (.stringLiteral "b") none]) init_state).1
      = .exn (.tiny "<input>:0: b") := by
  exact ⟨rfl, rfl, rfl⟩

/-- C6 as amended: on every exit from a block the current environment is
restored to the environment of entry — for the block helper used by
if/while bodies, for function, method and constructor invocation, and for
every foreach iteration — and a try/catch whose catch-block completes
normally also restores it; the one exception, shown by the counterexample,
is an error unwinding out of a catch-block, which leaves the catch frame
as the current environment. -/
theorem claim_C6_amended :
    (∀ (fuel : Nat) (ss : List Node) (st : St),
      ((execute_block fuel ss st).2).current_env = st.current_env) ∧
    (∀ (fuel fref : Nat) (args : List Val) (st : St),
      ((call_function fuel fref args st).2).current_env = st.current_env) ∧
    (∀ (fuel : Nat) (objv : Val) (mname : String) (args : List Val) (st : St),
      ((call_method fuel objv mname args st).2).current_env = st.current_env) ∧
    (∀ (fuel cref : Nat) (args : List Val) (st : St),
      ((instantiate_class fuel cref args st).2).current_env = st.current_env) ∧
    (∀ (fuel : Nat) (kv vv : String) (r : Nat) (body : List Node) (idx : Nat)
      (st : St),
      ((foreach_arr fuel kv vv r body idx st).2).current_env = st.current_env) ∧
    (∀ (fuel : Nat) (kv vv : String) (items : List (String × Val))
      (body : List Node) (st : St),
      ((foreach_dict fuel kv vv items body st).2).current_env = st.current_env) ∧
    (∀ (fuel : Nat) (tb cb : List Node) (cvar m : String) (v : Val)
      (st st1 st3 : St),
      eval_statements fuel tb st = (.exn (.tiny m), st1) →
      eval_statements fuel cb
        { st1 with
          frames := st1.frames ++ [⟨some st1.current_env, [(cvar, .str m)]⟩],
          current_env := st1.frames.length } = (.ok v, st3) →
      ((eval_statement (fuel + 1) (.tryCatch tb cvar cb) st).2).current_env
        = st1.current_env) := by
  refine ⟨execute_block_restores, call_function_restores, call_method_restores,
    instantiate_class_restores, foreach_arr_restores, foreach_dict_restores,
    ?_⟩
  intro fuel tb cb cvar m v st st1 st3 h1 h2
  simp only [eval_statement, h1, alloc_frame, h2]

/-- C6 witness: a try/catch whose catch-block completes normally restores
the entry environment. -/
theorem claim_C6_witness :
    ((eval_statement 6
      (.tryCatch [Node.raiseStmt (.stringLiteral "boom") none] "e" [])
      init_state).2).current_env = 0 := by
  exact claim_C6_amended.2.2.2.2.2.2 5
    [Node.raiseStmt (.stringLiteral "boom") none] [] "e" "<input>:0: boom"
    Val.null init_state init_state
    { init_state with
      frames := init_state.frames ++ [⟨some init_state.current_env, [("e", .str "<input>:0: boom")]⟩],
      current_env := init_state.frames.length } rfl rfl

end ToyLang
